import Mathlib

/-!
Shallow embedding of the scam-detection engine of the CYBERPROJECT repository:
the channel analyzers and scoring function of `src/server/scam-detector.ts`,
the deterministic scoring function and verdict derivation of
`src/server/routes.ts`, the in-memory pattern registry of
`src/server/storage.ts`, and the phone-number scan handler of the early
routes variant (`src/unnamed/part_000`).

JavaScript strings are modelled as Lean `String`; the ASCII-only keyword
matching of the source makes `toLowerCase` an ASCII case fold.  Calls to
`Math.random()` are made explicit: each scoring function takes an extra
`rand : Nat` argument and uses `rand % k` where the source computes
`Math.floor(Math.random() * k)`, so the modelled values range over exactly
the values the source can produce.
-/

namespace CyberProject

/-- ASCII case fold of one character, the effect of JavaScript
`toLowerCase()` on the ASCII strings handled by the engine. -/
def lowerChar (c : Char) : Char :=
  if 65 ≤ c.toNat ∧ c.toNat ≤ 90 then Char.ofNat (c.toNat + 32) else c

/-- JavaScript `s.toLowerCase()` on ASCII content. -/
def lowerStr (s : String) : String :=
  String.mk (s.toList.map lowerChar)

/-- JavaScript `haystack.includes(needle)`: substring containment. -/
def strIncludes (needle haystack : String) : Bool :=
  haystack.toList.tails.any (fun t => needle.toList.isPrefixOf t)

/-- JavaScript `s.startsWith(pre)`. -/
def strStarts (pre s : String) : Bool :=
  pre.toList.isPrefixOf s.toList

/-- JavaScript whitespace test (`\s`, and the characters `trim` removes). -/
def isWsChar (c : Char) : Bool := c.isWhitespace

/-- JavaScript `s.trim()`: strip whitespace from both ends. -/
def trimStr (s : String) : String :=
  String.mk (((s.toList.dropWhile isWsChar).reverse.dropWhile isWsChar).reverse)

/-- JavaScript `Array.prototype.join(' ')`. -/
def joinSpace : List String → String
  | [] => ""
  | [s] => s
  | s :: rest => s ++ " " ++ joinSpace rest

/-- A detection rule of the registry (`ScamPattern` of the shared schema). -/
structure ScamPattern where
  id : Nat
  category : String
  pattern : String
  weight : Nat
  description : String
deriving DecidableEq

/-- A rule as submitted to the registry, before an id is assigned. -/
structure InsertScamPattern where
  category : String
  pattern : String
  weight : Nat
  description : String
deriving DecidableEq

/-- Output of one channel analyzer: risk factors plus confidence. -/
structure AnalysisResult where
  riskFactors : List String
  confidence : Nat
deriving DecidableEq

/-- The three verdict labels. -/
inductive Verdict
  | safe
  | suspicious
  | dangerous
deriving DecidableEq

/-- Verdict derivation of `routes.ts`:
`let verdict = 'safe'; if (confidence >= 70) verdict = 'dangerous';
else if (confidence >= 40) verdict = 'suspicious';`. -/
def classify (confidence : Int) : Verdict :=
  if 70 ≤ confidence then .dangerous
  else if 40 ≤ confidence then .suspicious
  else .safe

namespace ScamDetector

/-- Loop body of `detectScamPatterns` (`scam-detector.ts` lines 7-11):
for each rule whose lowercased pattern occurs in the normalized content,
push its description, or the raw pattern when the description is empty. -/
def detectScamPatternsAux (normalizedContent : String) : List ScamPattern → List String
  | [] => []
  | p :: rest =>
    if strIncludes (lowerStr p.pattern) normalizedContent then
      (if p.description = "" then p.pattern else p.description)
        :: detectScamPatternsAux normalizedContent rest
    else
      detectScamPatternsAux normalizedContent rest

/-- `detectScamPatterns` of `scam-detector.ts`:
normalizes the content by `toLowerCase().trim()` and collects the matching
rules' descriptions in registry order. -/
def detectScamPatterns (content : String) (patterns : List ScamPattern) : List String :=
  detectScamPatternsAux (trimStr (lowerStr content)) patterns

/-- `calculateRiskScore` of `scam-detector.ts` lines 16-52, with the random
draw explicit: an empty factor list returns the randomized baseline
`5..14`; otherwise a count tier is chosen, contextual bonuses are added
when the joined lowercased factor text contains high-severity phrases, and
the result is clamped by `Math.max(5, Math.min(95, score))`. -/
def calculateRiskScore (riskFactors : List String) (rand : Nat) : Nat :=
  if riskFactors.length = 0 then
    rand % 10 + 5
  else
    let score :=
      if riskFactors.length = 1 then 35 + rand % 20
      else if riskFactors.length = 2 then 55 + rand % 25
      else 80 + rand % 15
    let content := lowerStr (joinSpace riskFactors)
    let score1 :=
      if strIncludes "instant loan" content || strIncludes "guaranteed win" content then
        score + 10
      else score
    let score2 :=
      if strIncludes "rbi" content || strIncludes "bank security" content then
        score1 + 15
      else score1
    let score3 :=
      if strIncludes "upi pin" content || strIncludes "otp" content then
        score2 + 12
      else score2
    max 5 (min 95 score3)

/-- The tier `calculateRiskScore` selects for a non-empty factor list of the
given length (abbreviation used to state facts about the function). -/
def tierScore (n rand : Nat) : Nat :=
  if n = 1 then 35 + rand % 20
  else if n = 2 then 55 + rand % 25
  else 80 + rand % 15

/-- The contextual bonus `calculateRiskScore` adds on top of the tier
(abbreviation used to state facts about the function). -/
def bonus (riskFactors : List String) : Nat :=
  let content := lowerStr (joinSpace riskFactors)
  (if strIncludes "instant loan" content || strIncludes "guaranteed win" content then 10 else 0)
    + (if strIncludes "rbi" content || strIncludes "bank security" content then 15 else 0)
    + (if strIncludes "upi pin" content || strIncludes "otp" content then 12 else 0)

/-- The fixed suspicious-domain list of `analyzeURL`. -/
def suspiciousDomains : List String :=
  [".tk", ".ml", ".ga", ".cf", "bit.ly", "tinyurl.com"]

/-- Remainders after consuming one, two or three digits
(the `\d{1,3}` regex piece, all backtracking alternatives). -/
def digits13 : List Char → List (List Char)
  | [] => []
  | c1 :: r1 =>
    if c1.isDigit then
      r1 :: (match r1 with
        | c2 :: r2 =>
          if c2.isDigit then
            r2 :: (match r2 with
              | c3 :: r3 => if c3.isDigit then [r3] else []
              | [] => [])
          else []
        | [] => [])
    else []

/-- Remainders after consuming a literal dot and then `\d{1,3}`. -/
def dotDigits13 : List Char → List (List Char)
  | '.' :: r => digits13 r
  | _ => []

/-- Whether `/\d{1,3}\.\d{1,3}\.\d{1,3}\.\d{1,3}/` matches at this position. -/
def ipAt (cs : List Char) : Bool :=
  (digits13 cs).any fun r1 =>
    (dotDigits13 r1).any fun r2 =>
      (dotDigits13 r2).any fun r3 =>
        !(dotDigits13 r3).isEmpty

/-- The unanchored dotted-quad test
`/\d{1,3}\.\d{1,3}\.\d{1,3}\.\d{1,3}/.test(s)`. -/
def ipTest (s : String) : Bool :=
  s.toList.tails.any ipAt

/-- `(url.match(/\./g) || []).length`: the count of dots. -/
def countDots (s : String) : Nat :=
  s.toList.countP (fun c => c == '.')

/-- Risk factors collected by `analyzeURL` (`scam-detector.ts` lines 54-80). -/
def urlRiskFactors (url : String) : List String :=
  let normalizedURL := lowerStr url
  (suspiciousDomains.filter (fun d => strIncludes d normalizedURL)).map
      (fun d => "Suspicious domain: " ++ d)
    ++ (if ipTest normalizedURL then ["Uses IP address instead of domain"] else [])
    ++ (if 3 < countDots url then ["Excessive subdomains detected"] else [])
    ++ (if !(strStarts "https://" normalizedURL) then ["No secure HTTPS connection"] else [])

/-- `analyzeURL` of `scam-detector.ts`. -/
def analyzeURL (url : String) (rand : Nat) : AnalysisResult :=
  { riskFactors := urlRiskFactors url
    confidence := calculateRiskScore (urlRiskFactors url) rand }

/-- Whether `\s*\d` matches at this position (whitespace run, then a digit). -/
def digitAfterWs (l : List Char) : Bool :=
  match l.dropWhile isWsChar with
  | c :: _ => c.isDigit
  | [] => false

/-- The `₹[\d,]+` alternative of the monetary regex at this position. -/
def rupeeAmount : List Char → Bool
  | '₹' :: c :: _ => c.isDigit || c == ','
  | _ => false

/-- The `rs\.?\s*\d+` alternative at this position (letters already lowercased). -/
def rsAmount : List Char → Bool
  | 'r' :: 's' :: rest =>
    digitAfterWs rest ||
      (match rest with
       | '.' :: r => digitAfterWs r
       | _ => false)
  | _ => false

/-- The `\d+\s*unit` alternatives (`lakh` / `crore`) at this position. -/
def unitAfterDigits (unit : List Char) (cs : List Char) : Bool :=
  match cs with
  | c :: rest =>
    c.isDigit && unit.isPrefixOf ((rest.dropWhile Char.isDigit).dropWhile isWsChar)
  | [] => false

/-- One position of the monetary regex
`/₹[\d,]+|rs\.?\s*\d+|\d+\s*lakh|\d+\s*crore/i`. -/
def moneyAt (cs : List Char) : Bool :=
  rupeeAmount cs || rsAmount cs ||
    unitAfterDigits "lakh".toList cs || unitAfterDigits "crore".toList cs

/-- The unanchored, case-insensitive monetary-amount test of `analyzeSMS`. -/
def moneyTest (text : String) : Bool :=
  (lowerStr text).toList.tails.any moneyAt

/-- The fixed urgency-word list of `analyzeSMS`. -/
def urgencyWords : List String :=
  ["urgent", "immediate", "expire", "block", "suspend", "limited time"]

/-- The fixed scam-phrase list of `analyzeSMS`. -/
def scamPhrases : List String :=
  ["click here", "verify now", "claim prize", "congratulations"]

/-- Risk factors collected by `analyzeSMS` (`scam-detector.ts` lines 86-114). -/
def smsRiskFactors (text : String) : List String :=
  let normalizedText := lowerStr text
  (urgencyWords.filter (fun w => strIncludes w normalizedText)).map
      (fun w => "Urgency tactic: \"" ++ w ++ "\"")
    ++ (if moneyTest text then ["Contains monetary amounts"] else [])
    ++ (if strIncludes "bit.ly" normalizedText || strIncludes "tinyurl" normalizedText then
          ["Contains shortened URLs"]
        else [])
    ++ (scamPhrases.filter (fun p => strIncludes p normalizedText)).map
      (fun p => "Scam phrase: \"" ++ p ++ "\"")

/-- `analyzeSMS` of `scam-detector.ts`. -/
def analyzeSMS (text : String) (rand : Nat) : AnalysisResult :=
  { riskFactors := smsRiskFactors text
    confidence := calculateRiskScore (smsRiskFactors text) rand }

/-- The fixed authority-impersonation list of `analyzeCall`. -/
def authorities : List String :=
  ["rbi", "bank", "police", "income tax", "customs"]

/-- The fixed sensitive-info-request list of `analyzeCall`. -/
def infoRequests : List String :=
  ["otp", "pin", "password", "cvv", "card number"]

/-- The fixed threat list of `analyzeCall`. -/
def threats : List String :=
  ["block account", "legal action", "arrest", "fine"]

/-- Risk factors collected by `analyzeCall` (`scam-detector.ts` lines 120-146). -/
def callRiskFactors (transcript : String) : List String :=
  let normalizedTranscript := lowerStr transcript
  (authorities.filter (fun a => strIncludes a normalizedTranscript)).map
      (fun a => "Claims to be from: " ++ a)
    ++ (infoRequests.filter (fun r => strIncludes r normalizedTranscript)).map
      (fun r => "Requests sensitive info: " ++ r)
    ++ (threats.filter (fun t => strIncludes t normalizedTranscript)).map
      (fun t => "Makes threats: " ++ t)

/-- `analyzeCall` of `scam-detector.ts`. -/
def analyzeCall (transcript : String) (rand : Nat) : AnalysisResult :=
  { riskFactors := callRiskFactors transcript
    confidence := calculateRiskScore (callRiskFactors transcript) rand }

/-- The loan-indicator keyword list of `analyzeAPK`. -/
def loanKeywords : List String := ["instant", "quick", "easy", "approved"]

/-- The gaming-indicator keyword list of `analyzeAPK`. -/
def gamingKeywords : List String := ["win", "cash", "earn", "daily"]

/-- Risk factors collected by `analyzeAPK` (`scam-detector.ts` lines 152-175);
the permissions check reads the raw `extractedStrings`, not the lowercased
combined text, exactly as the source does. -/
def apkRiskFactors (appName extractedStrings : String) : List String :=
  let combinedText := lowerStr (appName ++ " " ++ extractedStrings)
  (loanKeywords.filter
      (fun k => strIncludes k combinedText && strIncludes "loan" combinedText)).map
      (fun k => "Loan fraud indicator: " ++ k)
    ++ (gamingKeywords.filter
        (fun k => strIncludes k combinedText &&
          (strIncludes "rummy" combinedText || strIncludes "game" combinedText))).map
      (fun k => "Gaming fraud indicator: " ++ k)
    ++ (if strIncludes "contact" extractedStrings && strIncludes "sms" extractedStrings then
          ["Requests excessive permissions"]
        else [])

/-- `analyzeAPK` of `scam-detector.ts`. -/
def analyzeAPK (appName extractedStrings : String) (rand : Nat) : AnalysisResult :=
  { riskFactors := apkRiskFactors appName extractedStrings
    confidence := calculateRiskScore (apkRiskFactors appName extractedStrings) rand }

end ScamDetector

namespace Routes

/-- The deterministic `calculateRiskScore` of `routes.ts` lines 597-602:
a pure count-based tier with no randomness and no bonuses. -/
def calculateRiskScore (riskFactors : List String) : Nat :=
  if riskFactors.length = 0 then 5
  else if riskFactors.length = 1 then 45
  else if riskFactors.length = 2 then 75
  else 95

end Routes

/-- The scam-pattern slice of `MemStorage` (`storage.ts`): the stored rules
in insertion order of the backing `Map` (fresh auto-increment keys, so
`Array.from(map.values())` is insertion order) and the id counter. -/
structure RegistryState where
  scamPatterns : List ScamPattern
  currentPatternId : Nat
deriving DecidableEq

namespace MemStorage

/-- `MemStorage.createScamPattern` (`storage.ts` lines 198-203): take the
next id, post-increment the counter, store the rule under the fresh key. -/
def createScamPattern (st : RegistryState) (insertPattern : InsertScamPattern) :
    ScamPattern × RegistryState :=
  let id := st.currentPatternId
  let pattern : ScamPattern :=
    { id := id
      category := insertPattern.category
      pattern := insertPattern.pattern
      weight := insertPattern.weight
      description := insertPattern.description }
  (pattern,
    { scamPatterns := st.scamPatterns ++ [pattern]
      currentPatternId := st.currentPatternId + 1 })

/-- `MemStorage.getScamPatterns` (`storage.ts` lines 190-196): the JavaScript
`if (category)` truthiness test means an absent or empty-string category
returns every stored rule; otherwise the rules of that category, in order. -/
def getScamPatterns (st : RegistryState) (category : Option String) : List ScamPattern :=
  match category with
  | some c => if c = "" then st.scamPatterns else st.scamPatterns.filter (fun p => p.category == c)
  | none => st.scamPatterns

/-- The fixed seed list of `initializeScamPatterns` (`storage.ts` lines 60-88),
fields in order category, pattern, weight, description. -/
def defaultPatterns : List InsertScamPattern :=
  [⟨"loan", "instant loan", 90, "Instant loan promises"⟩,
   ⟨"loan", "loan approval", 85, "Guaranteed loan approval"⟩,
   ⟨"loan", "without documents", 95, "No document loans"⟩,
   ⟨"loan", "immediate fund", 80, "Immediate fund transfer"⟩,
   ⟨"rummy", "earn money playing", 90, "Earn money playing games"⟩,
   ⟨"rummy", "guaranteed win", 95, "Guaranteed winning"⟩,
   ⟨"rummy", "daily earning", 85, "Daily earning promises"⟩,
   ⟨"rummy", "cash game", 70, "Cash game references"⟩,
   ⟨"phishing", "verify account", 80, "Account verification scam"⟩,
   ⟨"phishing", "suspended account", 85, "Account suspension threat"⟩,
   ⟨"phishing", "click here now", 75, "Urgent action required"⟩,
   ⟨"phishing", "update kyc", 80, "KYC update scam"⟩,
   ⟨"upi", "upi pin", 95, "UPI PIN request"⟩,
   ⟨"upi", "payment failed", 70, "Fake payment failure"⟩,
   ⟨"upi", "refund process", 75, "Fake refund process"⟩,
   ⟨"lottery", "kbc winner", 95, "KBC lottery scam"⟩,
   ⟨"lottery", "congratulations won", 90, "Congratulatory lottery scam"⟩,
   ⟨"lottery", "prize money", 85, "Prize money scam"⟩]

/-- The registry state built by the `MemStorage` constructor: counter starts
at 1, then `initializeScamPatterns` feeds every default rule through
`createScamPattern`. -/
def initRegistry : RegistryState :=
  defaultPatterns.foldl (fun st p => (createScamPattern st p).2)
    { scamPatterns := [], currentPatternId := 1 }

end MemStorage

/-- One row of the known-scammer table of the `/api/scan/phone` handler
(`src/unnamed/part_000` lines 215-223). -/
structure ScammerEntry where
  number : String
  type : String
  reports : Nat
  lastSeen : String
deriving DecidableEq

/-- The hardcoded known-scammer table. -/
def knownScamNumbers : List ScammerEntry :=
  [⟨"+91-9876543210", "Loan Fraud", 342, "2 hours ago"⟩,
   ⟨"+91-8765432109", "KBC Lottery Scam", 187, "5 hours ago"⟩,
   ⟨"+91-7654321098", "Bank Impersonation", 251, "1 day ago"⟩,
   ⟨"+91-6543210987", "Investment Fraud", 89, "3 hours ago"⟩,
   ⟨"+91-5432109876", "UPI Fraud", 156, "30 minutes ago"⟩,
   ⟨"+91-4321098765", "Tech Support Scam", 73, "4 hours ago"⟩,
   ⟨"+91-3210987654", "Romance Scam", 45, "6 hours ago"⟩]

/-- JavaScript `phoneNumber.replace(/\D/g, '')`: keep only digits. -/
def digitsOnly (s : String) : String :=
  String.mk (s.toList.filter Char.isDigit)

/-- The triple the phone handler computes before persisting the scan. -/
structure PhoneScanResult where
  verdict : Verdict
  confidence : Nat
  riskFactors : List String
deriving DecidableEq

/-- The table lookup of the phone handler: an entry matches when its number
equals the trimmed input or its digits equal the input's digits. -/
def lookupScammer (phoneNumber : String) : Option ScammerEntry :=
  let cleanedPhone := digitsOnly phoneNumber
  let normalizedPhone := trimStr phoneNumber
  knownScamNumbers.find? (fun scammer =>
    scammer.number == normalizedPhone || digitsOnly scammer.number == cleanedPhone)

/-- The `/api/scan/phone` handler of `src/unnamed/part_000` lines 225-268,
with the `Math.random()` draw of the safe branch explicit: a table hit is
`dangerous` with confidence `min(85 + reports/10, 95)`; otherwise prefix
heuristics give `suspicious`, and a clean number gets the randomized
`safe` baseline. -/
def phoneScan (phoneNumber : String) (rand : Nat) : PhoneScanResult :=
  match lookupScammer phoneNumber with
  | some scammerData =>
    { verdict := .dangerous
      confidence := min (85 + scammerData.reports / 10) 95
      riskFactors :=
        ["Reported " ++ toString scammerData.reports ++ " times for " ++ scammerData.type,
         "Last seen: " ++ scammerData.lastSeen,
         "Known scammer in community database",
         "High fraud risk - Block immediately"] }
  | none =>
    let cleanedPhone := digitsOnly phoneNumber
    let suspiciousPatterns :=
      (if strStarts "900" cleanedPhone || strStarts "905" cleanedPhone then
        ["Premium rate number"]
      else []) ++
      (if 10 < cleanedPhone.length && !(strStarts "91" cleanedPhone) then
        ["International/VOIP number"]
      else [])
    if 0 < suspiciousPatterns.length then
      { verdict := .suspicious
        confidence := 35 + suspiciousPatterns.length * 15
        riskFactors := suspiciousPatterns }
    else
      { verdict := .safe
        confidence := rand % 15 + 5
        riskFactors := ["No reports found", "Appears to be legitimate"] }

end CyberProject

namespace CyberProject

/-! ### Helper lemmas -/

theorem toList_append (a b : String) : (a ++ b).toList = a.toList ++ b.toList := rfl

theorem strIncludes_iff (needle haystack : String) :
    strIncludes needle haystack = true ↔ needle.toList <:+: haystack.toList := by
  simp only [strIncludes, List.any_eq_true]
  constructor
  · rintro ⟨t, ht, hp⟩
    rw [List.mem_tails] at ht
    rw [List.isPrefixOf_iff_prefix] at hp
    exact List.infix_iff_prefix_suffix.2 ⟨t, hp, ht⟩
  · intro h
    obtain ⟨t, hp, ht⟩ := List.infix_iff_prefix_suffix.1 h
    exact ⟨t, (List.mem_tails _ _).2 ht, List.isPrefixOf_iff_prefix.2 hp⟩

theorem strIncludes_append_left (p a b : String) (h : strIncludes p a = true) :
    strIncludes p (a ++ b) = true := by
  rw [strIncludes_iff] at h ⊢
  obtain ⟨s, t, hst⟩ := h
  exact ⟨s, t ++ b.toList, by rw [toList_append, ← hst]; simp⟩

namespace ScamDetector

theorem calculateRiskScore_nil (rand : Nat) :
    calculateRiskScore [] rand = rand % 10 + 5 := rfl

theorem calculateRiskScore_eq (riskFactors : List String) (rand : Nat)
    (h : riskFactors ≠ []) :
    calculateRiskScore riskFactors rand =
      max 5 (min 95 (tierScore riskFactors.length rand + bonus riskFactors)) := by
  have hlen : ¬ riskFactors.length = 0 := by simpa [List.length_eq_zero] using h
  simp only [calculateRiskScore, tierScore, bonus, if_neg hlen]
  split_ifs <;> omega

theorem joinSpace_toList_append (L : List String) (f : String) (hL : L ≠ []) :
    (joinSpace (L ++ [f])).toList = (joinSpace L).toList ++ (' ' :: f.toList) := by
  induction L with
  | nil => exact absurd rfl hL
  | cons s rest ih =>
    cases rest with
    | nil => simp [joinSpace, toList_append]
    | cons s2 rest2 =>
      have h2 : s2 :: rest2 ≠ [] := by simp
      have ih' := ih h2
      show (s ++ " " ++ joinSpace ((s2 :: rest2) ++ [f])).toList
          = (s ++ " " ++ joinSpace (s2 :: rest2)).toList ++ ' ' :: f.toList
      simp only [toList_append]
      rw [ih']
      simp [List.append_assoc]

theorem includes_join_mono (p f : String) (L : List String) (hL : L ≠ [])
    (h : strIncludes p (lowerStr (joinSpace L)) = true) :
    strIncludes p (lowerStr (joinSpace (L ++ [f]))) = true := by
  rw [strIncludes_iff] at h ⊢
  have key : (lowerStr (joinSpace (L ++ [f]))).toList =
      (lowerStr (joinSpace L)).toList ++ (' ' :: f.toList).map lowerChar := by
    show ((joinSpace (L ++ [f])).toList.map lowerChar) = _
    rw [joinSpace_toList_append L f hL, List.map_append]
    rfl
  rw [key]
  obtain ⟨s, t, hst⟩ := h
  exact ⟨s, t ++ (' ' :: f.toList).map lowerChar, by rw [← hst]; simp⟩

theorem bonus_mono (L : List String) (f : String) (hL : L ≠ []) :
    bonus L ≤ bonus (L ++ [f]) := by
  have imp : ∀ (b1 b2 : Bool) (k : Nat), (b1 = true → b2 = true) →
      (if b1 then k else 0) ≤ (if b2 then k else 0) := by
    intro b1 b2 k h
    cases b1 with
    | false => cases b2 <;> simp
    | true => rw [h rfl]
  have orMono : ∀ p q : String,
      (strIncludes p (lowerStr (joinSpace L)) || strIncludes q (lowerStr (joinSpace L))) = true →
      (strIncludes p (lowerStr (joinSpace (L ++ [f])))
        || strIncludes q (lowerStr (joinSpace (L ++ [f])))) = true := by
    intro p q h
    rcases Bool.or_eq_true_iff.1 h with h' | h'
    · exact Bool.or_eq_true_iff.2 (Or.inl (includes_join_mono p f L hL h'))
    · exact Bool.or_eq_true_iff.2 (Or.inr (includes_join_mono q f L hL h'))
  simp only [bonus]
  exact Nat.add_le_add (Nat.add_le_add (imp _ _ _ (orMono _ _)) (imp _ _ _ (orMono _ _)))
    (imp _ _ _ (orMono _ _))

theorem tierScore_mono (n rand : Nat) (h : 1 ≤ n) :
    tierScore n rand ≤ tierScore (n + 1) rand := by
  simp only [tierScore]
  split_ifs <;> omega

end ScamDetector

theorem classify_of_lt_40 (n : Nat) (h : n < 40) : classify n = .safe := by
  unfold classify
  split_ifs with h1 h2 <;> first | rfl | omega

theorem classify_of_ge_70 (n : Nat) (h : 70 ≤ n) : classify n = .dangerous := by
  unfold classify
  split_ifs with h1 <;> first | rfl | omega

theorem classify_of_ge_40_lt_70 (n : Nat) (h1 : 40 ≤ n) (h2 : n < 70) :
    classify n = .suspicious := by
  unfold classify
  split_ifs with hc1 hc2 <;> first | rfl | omega

theorem classify_ne_safe_of_ge_40 (n : Nat) (h : 40 ≤ n) : classify n ≠ .safe := by
  unfold classify
  split_ifs with h1 h2 <;> simp_all

/-! ### Claim theorems -/

/-- Claim C1: `calculateRiskScore` always returns a value in the closed
interval [5,95]; the empty list yields the randomized baseline
`rand % 10 + 5`, and the deterministic `routes.ts` variant also stays in
[5,95]. -/
theorem calculateRiskScore_bounded (riskFactors : List String) (rand : Nat) :
    5 ≤ ScamDetector.calculateRiskScore riskFactors rand ∧
    ScamDetector.calculateRiskScore riskFactors rand ≤ 95 ∧
    ScamDetector.calculateRiskScore [] rand = rand % 10 + 5 ∧
    5 ≤ Routes.calculateRiskScore riskFactors ∧
    Routes.calculateRiskScore riskFactors ≤ 95 := by
  have hroutes : 5 ≤ Routes.calculateRiskScore riskFactors ∧
      Routes.calculateRiskScore riskFactors ≤ 95 := by
    simp only [Routes.calculateRiskScore]
    split_ifs <;> omega
  by_cases h : riskFactors = []
  · subst h
    refine ⟨?_, ?_, rfl, hroutes.1, hroutes.2⟩
    · show 5 ≤ rand % 10 + 5
      omega
    · show rand % 10 + 5 ≤ 95
      omega
  · rw [ScamDetector.calculateRiskScore_eq _ _ h]
    exact ⟨by omega, by omega, rfl, hroutes.1, hroutes.2⟩

/-- Claim C2 counterexample: across independent random draws the tiered
scoring of `scam-detector.ts` is not monotone — appending the factor "d"
to ["a", "b", "c"] can lower the score from 94 (three factors, jitter 14)
to 80 (four factors, jitter 0). -/
theorem score_not_monotone_cex :
    ScamDetector.calculateRiskScore (["a", "b", "c"] ++ ["d"]) 0 <
      ScamDetector.calculateRiskScore ["a", "b", "c"] 14 := by decide

/-- Claim C2 (amended): adding a risk factor never decreases the score for
the deterministic count-based variant of `routes.ts`; for the tiered
variant of `scam-detector.ts` the same holds whenever the two scores are
computed from the same random draw — across independent draws the property
fails (see the counterexample). -/
theorem score_monotone_amended :
    (∀ (L : List String) (f : String),
      Routes.calculateRiskScore L ≤ Routes.calculateRiskScore (L ++ [f])) ∧
    (∀ (L : List String) (f : String) (rand : Nat),
      ScamDetector.calculateRiskScore L rand ≤
        ScamDetector.calculateRiskScore (L ++ [f]) rand) := by
  constructor
  · intro L f
    simp only [Routes.calculateRiskScore, List.length_append, List.length_cons,
      List.length_nil]
    split_ifs <;> first | contradiction | omega
  · intro L f rand
    by_cases hL : L = []
    · subst hL
      rw [show (([] : List String) ++ [f]) = [f] from rfl,
        ScamDetector.calculateRiskScore_eq [f] rand (by simp)]
      rw [show ScamDetector.tierScore ([f] : List String).length rand
          = 35 + rand % 20 from by simp [ScamDetector.tierScore]]
      show rand % 10 + 5 ≤ _
      omega
    · rw [ScamDetector.calculateRiskScore_eq L rand hL,
        ScamDetector.calculateRiskScore_eq (L ++ [f]) rand (by simp)]
      rw [show (L ++ [f]).length = L.length + 1 from by simp]
      have ht := ScamDetector.tierScore_mono L.length rand (List.length_pos.2 hL)
      have hb := ScamDetector.bonus_mono L f hL
      omega

/-- Claim C3: the verdict derivation of `routes.ts` is total on integer
confidences in [0,100] and partitions that interval at the 39/40 and 69/70
boundaries: at least 70 is `dangerous`, 40 to 69 is `suspicious`, below 40
is `safe`, and the three cases are mutually exclusive and exhaustive. -/
theorem classify_partition (c : Int) (h0 : 0 ≤ c) (h100 : c ≤ 100) :
    (classify c = .dangerous ∨ classify c = .suspicious ∨ classify c = .safe) ∧
    (classify c = .dangerous ↔ 70 ≤ c) ∧
    (classify c = .suspicious ↔ 40 ≤ c ∧ c < 70) ∧
    (classify c = .safe ↔ c < 40) := by
  unfold classify
  split_ifs with h1 h2 <;>
    refine ⟨by simp, ?_, ?_, ?_⟩ <;> simp <;> omega

/-- Witness for claim C3 at confidence 55. -/
theorem classify_partition_witness :
    (0 : Int) ≤ 55 ∧ (55 : Int) ≤ 100 ∧
      ((classify 55 = .dangerous ∨ classify 55 = .suspicious ∨ classify 55 = .safe) ∧
        (classify 55 = .dangerous ↔ 70 ≤ (55 : Int)) ∧
        (classify 55 = .suspicious ↔ 40 ≤ (55 : Int) ∧ (55 : Int) < 70) ∧
        (classify 55 = .safe ↔ (55 : Int) < 40)) :=
  ⟨by norm_num, by norm_num, classify_partition 55 (by norm_num) (by norm_num)⟩

/-- Claim C4 counterexample: `analyzeURL` applied to the empty string does
not return zero risk factors — the missing-HTTPS check fires — and with
jitter 10 its confidence is 45, so the derived verdict is `suspicious`,
not `safe`. -/
theorem empty_content_cex :
    (ScamDetector.analyzeURL "" 0).riskFactors ≠ [] ∧
    (ScamDetector.analyzeURL "" 10).confidence = 45 ∧
    classify ((ScamDetector.analyzeURL "" 10).confidence : Int) = .suspicious := by
  refine ⟨by decide, by decide, by decide⟩

/-- Claim C4 (amended): on empty content `analyzeSMS`, `analyzeCall` and
`analyzeAPK` return zero risk factors and the randomized baseline
`rand % 10 + 5`, whose verdict is `safe`; `analyzeURL` instead returns the
single missing-HTTPS factor with confidence `35 + rand % 20`, whose
verdict is `safe` or `suspicious` depending on the draw; and the phone
scan returns the two informational factors with the safe baseline
`rand % 15 + 5`. -/
theorem empty_content_amended (rand : Nat) :
    (ScamDetector.analyzeSMS "" rand).riskFactors = [] ∧
    (ScamDetector.analyzeSMS "" rand).confidence = rand % 10 + 5 ∧
    classify ((ScamDetector.analyzeSMS "" rand).confidence : Int) = .safe ∧
    (ScamDetector.analyzeCall "" rand).riskFactors = [] ∧
    (ScamDetector.analyzeCall "" rand).confidence = rand % 10 + 5 ∧
    classify ((ScamDetector.analyzeCall "" rand).confidence : Int) = .safe ∧
    (ScamDetector.analyzeAPK "" "" rand).riskFactors = [] ∧
    (ScamDetector.analyzeAPK "" "" rand).confidence = rand % 10 + 5 ∧
    classify ((ScamDetector.analyzeAPK "" "" rand).confidence : Int) = .safe ∧
    (ScamDetector.analyzeURL "" rand).riskFactors = ["No secure HTTPS connection"] ∧
    (ScamDetector.analyzeURL "" rand).confidence = 35 + rand % 20 ∧
    (classify ((ScamDetector.analyzeURL "" rand).confidence : Int) = .safe ∨
      classify ((ScamDetector.analyzeURL "" rand).confidence : Int) = .suspicious) ∧
    (phoneScan "" rand).verdict = .safe ∧
    (phoneScan "" rand).riskFactors = ["No reports found", "Appears to be legitimate"] ∧
    (phoneScan "" rand).confidence = rand % 15 + 5 := by
  have hsms : ScamDetector.smsRiskFactors "" = [] := by decide
  have hcall : ScamDetector.callRiskFactors "" = [] := by decide
  have hapk : ScamDetector.apkRiskFactors "" "" = [] := by decide
  have hurl : ScamDetector.urlRiskFactors "" = ["No secure HTTPS connection"] := by decide
  have hsc : (ScamDetector.analyzeSMS "" rand).confidence = rand % 10 + 5 := by
    show ScamDetector.calculateRiskScore (ScamDetector.smsRiskFactors "") rand = _
    rw [hsms, ScamDetector.calculateRiskScore_nil]
  have hcc : (ScamDetector.analyzeCall "" rand).confidence = rand % 10 + 5 := by
    show ScamDetector.calculateRiskScore (ScamDetector.callRiskFactors "") rand = _
    rw [hcall, ScamDetector.calculateRiskScore_nil]
  have hac : (ScamDetector.analyzeAPK "" "" rand).confidence = rand % 10 + 5 := by
    show ScamDetector.calculateRiskScore (ScamDetector.apkRiskFactors "" "") rand = _
    rw [hapk, ScamDetector.calculateRiskScore_nil]
  have huc : (ScamDetector.analyzeURL "" rand).confidence = 35 + rand % 20 := by
    show ScamDetector.calculateRiskScore (ScamDetector.urlRiskFactors "") rand = _
    rw [hurl, ScamDetector.calculateRiskScore_eq _ _ (by simp)]
    rw [show ScamDetector.tierScore (["No secure HTTPS connection"] : List String).length rand
        = 35 + rand % 20 from by simp [ScamDetector.tierScore]]
    rw [show ScamDetector.bonus ["No secure HTTPS connection"] = 0 from by decide]
    omega
  refine ⟨hsms, hsc, ?_, hcall, hcc, ?_, hapk, hac, ?_, hurl, huc, ?_, rfl, rfl, rfl⟩
  · rw [hsc]; exact classify_of_lt_40 _ (by omega)
  · rw [hcc]; exact classify_of_lt_40 _ (by omega)
  · rw [hac]; exact classify_of_lt_40 _ (by omega)
  · rw [huc]
    by_cases h40 : 40 ≤ 35 + rand % 20
    · exact Or.inr (classify_of_ge_40_lt_70 _ h40 (by omega))
    · exact Or.inl (classify_of_lt_40 _ (by omega))

/-- Claim C5 counterexample: adding a rule whose `pattern` field is the
empty string does not fail — `createScamPattern` assigns it the next id
(19 on the seeded registry) and stores it, so the registry then contains a
rule with an empty pattern. -/
theorem createScamPattern_empty_cex :
    ((MemStorage.createScamPattern MemStorage.initRegistry
        ⟨"test", "", 50, "Empty pattern rule"⟩).1.id = 19) ∧
    ((MemStorage.createScamPattern MemStorage.initRegistry
        ⟨"test", "", 50, "Empty pattern rule"⟩).2.scamPatterns.any
      (fun p => p.pattern == "")) = true := by
  exact ⟨by decide, by decide⟩

/-- Claim C5 (amended): `createScamPattern` always succeeds — empty pattern
included — assigning the next id, appending the rule and incrementing the
counter; it preserves id uniqueness, and it preserves the non-empty-pattern
invariant only when the submitted pattern is itself non-empty. -/
theorem createScamPattern_spec (st : RegistryState) (ins : InsertScamPattern)
    (hid : ∀ p ∈ st.scamPatterns, p.id < st.currentPatternId)
    (hpw : st.scamPatterns.Pairwise (fun a b => a.id ≠ b.id)) :
    ((MemStorage.createScamPattern st ins).1.id = st.currentPatternId) ∧
    ((MemStorage.createScamPattern st ins).1.pattern = ins.pattern) ∧
    ((MemStorage.createScamPattern st ins).2.scamPatterns
      = st.scamPatterns ++ [(MemStorage.createScamPattern st ins).1]) ∧
    ((MemStorage.createScamPattern st ins).2.currentPatternId
      = st.currentPatternId + 1) ∧
    (∀ p ∈ (MemStorage.createScamPattern st ins).2.scamPatterns,
      p.id < (MemStorage.createScamPattern st ins).2.currentPatternId) ∧
    ((MemStorage.createScamPattern st ins).2.scamPatterns.Pairwise
      (fun a b => a.id ≠ b.id)) ∧
    (ins.pattern ≠ "" → (∀ p ∈ st.scamPatterns, p.pattern ≠ "") →
      ∀ p ∈ (MemStorage.createScamPattern st ins).2.scamPatterns, p.pattern ≠ "") := by
  have hps : (MemStorage.createScamPattern st ins).2.scamPatterns
      = st.scamPatterns ++ [(MemStorage.createScamPattern st ins).1] := rfl
  have hid' : (MemStorage.createScamPattern st ins).1.id = st.currentPatternId := rfl
  refine ⟨rfl, rfl, rfl, rfl, ?_, ?_, ?_⟩
  · intro p hp
    rw [hps] at hp
    rcases List.mem_append.1 hp with h | h
    · exact Nat.lt_succ_of_lt (hid p h)
    · rw [List.mem_singleton.1 h, hid']
      exact Nat.lt_succ_self _
  · rw [hps]
    refine List.pairwise_append.2 ⟨hpw, List.pairwise_singleton _ _, ?_⟩
    intro a ha b hb
    rw [List.mem_singleton.1 hb, hid']
    exact Nat.ne_of_lt (hid a ha)
  · intro hne hall p hp
    rw [hps] at hp
    rcases List.mem_append.1 hp with h | h
    · exact hall p h
    · rw [List.mem_singleton.1 h]
      exact hne

/-- Witness for claim C5: appending a fresh loan rule to the seeded
registry. -/
theorem createScamPattern_spec_witness :
    ((∀ p ∈ MemStorage.initRegistry.scamPatterns,
        p.id < MemStorage.initRegistry.currentPatternId) ∧
      MemStorage.initRegistry.scamPatterns.Pairwise (fun a b => a.id ≠ b.id)) ∧
    (((MemStorage.createScamPattern MemStorage.initRegistry
        ⟨"loan", "zero interest", 60, "Zero interest bait"⟩).1.id
        = MemStorage.initRegistry.currentPatternId) ∧
      ((MemStorage.createScamPattern MemStorage.initRegistry
        ⟨"loan", "zero interest", 60, "Zero interest bait"⟩).1.pattern
        = (⟨"loan", "zero interest", 60, "Zero interest bait"⟩ : InsertScamPattern).pattern) ∧
      ((MemStorage.createScamPattern MemStorage.initRegistry
        ⟨"loan", "zero interest", 60, "Zero interest bait"⟩).2.scamPatterns
        = MemStorage.initRegistry.scamPatterns
          ++ [(MemStorage.createScamPattern MemStorage.initRegistry
            ⟨"loan", "zero interest", 60, "Zero interest bait"⟩).1]) ∧
      ((MemStorage.createScamPattern MemStorage.initRegistry
        ⟨"loan", "zero interest", 60, "Zero interest bait"⟩).2.currentPatternId
        = MemStorage.initRegistry.currentPatternId + 1) ∧
      (∀ p ∈ (MemStorage.createScamPattern MemStorage.initRegistry
          ⟨"loan", "zero interest", 60, "Zero interest bait"⟩).2.scamPatterns,
        p.id < (MemStorage.createScamPattern MemStorage.initRegistry
          ⟨"loan", "zero interest", 60, "Zero interest bait"⟩).2.currentPatternId) ∧
      ((MemStorage.createScamPattern MemStorage.initRegistry
        ⟨"loan", "zero interest", 60, "Zero interest bait"⟩).2.scamPatterns.Pairwise
        (fun a b => a.id ≠ b.id)) ∧
      ((⟨"loan", "zero interest", 60, "Zero interest bait"⟩ : InsertScamPattern).pattern ≠ "" →
        (∀ p ∈ MemStorage.initRegistry.scamPatterns, p.pattern ≠ "") →
        ∀ p ∈ (MemStorage.createScamPattern MemStorage.initRegistry
          ⟨"loan", "zero interest", 60, "Zero interest bait"⟩).2.scamPatterns,
          p.pattern ≠ "")) :=
  ⟨⟨by decide, by decide⟩,
    createScamPattern_spec MemStorage.initRegistry
      ⟨"loan", "zero interest", 60, "Zero interest bait"⟩ (by decide) (by decide)⟩

/-- Claim C6: when the phone number is found in the known-scammer table the
phone scan yields verdict `dangerous`, confidence exactly
`min(85 + reports/10, 95)` — hence at least 85 — and its risk factors
include the entry's report count and fraud category. -/
theorem phoneScan_known (phoneNumber : String) (rand : Nat) (e : ScammerEntry)
    (h : lookupScammer phoneNumber = some e) :
    (phoneScan phoneNumber rand).verdict = .dangerous ∧
    (phoneScan phoneNumber rand).confidence = min (85 + e.reports / 10) 95 ∧
    85 ≤ (phoneScan phoneNumber rand).confidence ∧
    ("Reported " ++ toString e.reports ++ " times for " ++ e.type)
      ∈ (phoneScan phoneNumber rand).riskFactors := by
  simp only [phoneScan, h]
  refine ⟨trivial, trivial, ?_, by simp⟩
  show 85 ≤ min (85 + e.reports / 10) 95
  omega

/-- Witness for claim C6 at the first table entry. -/
theorem phoneScan_known_witness :
    lookupScammer "+91-9876543210"
      = some ⟨"+91-9876543210", "Loan Fraud", 342, "2 hours ago"⟩ ∧
    ((phoneScan "+91-9876543210" 7).verdict = .dangerous ∧
      (phoneScan "+91-9876543210" 7).confidence = min (85 + (342 : Nat) / 10) 95 ∧
      85 ≤ (phoneScan "+91-9876543210" 7).confidence ∧
      ("Reported " ++ toString (342 : Nat) ++ " times for " ++ "Loan Fraud")
        ∈ (phoneScan "+91-9876543210" 7).riskFactors) :=
  ⟨by decide,
    phoneScan_known "+91-9876543210" 7
      ⟨"+91-9876543210", "Loan Fraud", 342, "2 hours ago"⟩ (by decide)⟩

/-- Claim C7: `detectScamPatterns` returns, in registry order, the
description (or raw pattern when the description is empty) of exactly
those rules whose lowercased pattern occurs as a substring of the
lowercased, trimmed content; non-matching rules contribute nothing. -/
theorem detectScamPatterns_spec (content : String) (patterns : List ScamPattern) :
    ScamDetector.detectScamPatterns content patterns =
      (patterns.filter
          (fun p => strIncludes (lowerStr p.pattern) (trimStr (lowerStr content)))).map
        (fun p => if p.description = "" then p.pattern else p.description) ∧
    ∀ s, s ∈ ScamDetector.detectScamPatterns content patterns ↔
      ∃ p, p ∈ patterns ∧
        strIncludes (lowerStr p.pattern) (trimStr (lowerStr content)) = true ∧
        s = (if p.description = "" then p.pattern else p.description) := by
  have key : ∀ (nc : String) (ps : List ScamPattern),
      ScamDetector.detectScamPatternsAux nc ps =
        (ps.filter (fun p => strIncludes (lowerStr p.pattern) nc)).map
          (fun p => if p.description = "" then p.pattern else p.description) := by
    intro nc ps
    induction ps with
    | nil => rfl
    | cons p rest ih =>
      by_cases hm : strIncludes (lowerStr p.pattern) nc = true
      · simp [ScamDetector.detectScamPatternsAux, List.filter_cons, hm, ih]
      · simp [ScamDetector.detectScamPatternsAux, List.filter_cons, hm, ih]
  refine ⟨key _ _, ?_⟩
  intro s
  rw [show ScamDetector.detectScamPatterns content patterns
      = ScamDetector.detectScamPatternsAux (trimStr (lowerStr content)) patterns from rfl,
    key]
  simp only [List.mem_map, List.mem_filter]
  constructor
  · rintro ⟨p, ⟨hp, hm⟩, rfl⟩
    exact ⟨p, hp, hm, rfl⟩
  · rintro ⟨p, hp, hm, rfl⟩
    exact ⟨p, ⟨hp, hm⟩, rfl⟩

/-- Claim C8 counterexample: calling `getScamPatterns` with the category
`""` does not return the rules of that category (there are none) — the
JavaScript truthiness test `if (category)` treats it as absent and returns
all 18 seeded rules. -/
theorem getScamPatterns_empty_category_cex :
    MemStorage.getScamPatterns MemStorage.initRegistry (some "")
      = MemStorage.initRegistry.scamPatterns ∧
    MemStorage.initRegistry.scamPatterns.filter (fun p => p.category == "") = [] ∧
    MemStorage.initRegistry.scamPatterns.length = 18 := by
  exact ⟨by decide, by decide, by decide⟩

/-- Claim C8 (amended): with no category `getScamPatterns` returns the full
stored sequence; with a non-empty category it returns exactly the rules of
that category as an order-preserving subsequence; reads are pure, and the
empty-string category is treated as absent, returning everything. -/
theorem getScamPatterns_spec (st : RegistryState) (c : String) (hc : c ≠ "") :
    MemStorage.getScamPatterns st none = st.scamPatterns ∧
    MemStorage.getScamPatterns st (some c)
      = st.scamPatterns.filter (fun p => p.category == c) ∧
    (MemStorage.getScamPatterns st (some c)).Sublist st.scamPatterns ∧
    (∀ p, p ∈ MemStorage.getScamPatterns st (some c) ↔
      p ∈ st.scamPatterns ∧ p.category = c) ∧
    MemStorage.getScamPatterns st (some "") = st.scamPatterns := by
  refine ⟨rfl, ?_, ?_, ?_, by simp [MemStorage.getScamPatterns]⟩
  · simp [MemStorage.getScamPatterns, hc]
  · simp only [MemStorage.getScamPatterns, if_neg hc]
    exact List.filter_sublist _
  · intro p
    simp [MemStorage.getScamPatterns, hc, List.mem_filter]

/-- Witness for claim C8 at the seeded registry with category "loan". -/
theorem getScamPatterns_spec_witness :
    ("loan" : String) ≠ "" ∧
    (MemStorage.getScamPatterns MemStorage.initRegistry none
      = MemStorage.initRegistry.scamPatterns ∧
    MemStorage.getScamPatterns MemStorage.initRegistry (some "loan")
      = MemStorage.initRegistry.scamPatterns.filter (fun p => p.category == "loan") ∧
    (MemStorage.getScamPatterns MemStorage.initRegistry (some "loan")).Sublist
      MemStorage.initRegistry.scamPatterns ∧
    (∀ p, p ∈ MemStorage.getScamPatterns MemStorage.initRegistry (some "loan") ↔
      p ∈ MemStorage.initRegistry.scamPatterns ∧ p.category = "loan") ∧
    MemStorage.getScamPatterns MemStorage.initRegistry (some "")
      = MemStorage.initRegistry.scamPatterns) :=
  ⟨by decide, getScamPatterns_spec MemStorage.initRegistry "loan" (by decide)⟩

/-- Claim C9: `analyzeURL "http://bit.ly/abc123"` flags the bit.ly shortener
and the missing HTTPS prefix; for every random draw the confidence is at
least 40 (it is `55 + rand % 25`), so the derived verdict is never
`safe`. -/
theorem analyzeURL_shortened_http (rand : Nat) :
    "Suspicious domain: bit.ly"
      ∈ (ScamDetector.analyzeURL "http://bit.ly/abc123" rand).riskFactors ∧
    "No secure HTTPS connection"
      ∈ (ScamDetector.analyzeURL "http://bit.ly/abc123" rand).riskFactors ∧
    40 ≤ (ScamDetector.analyzeURL "http://bit.ly/abc123" rand).confidence ∧
    classify ((ScamDetector.analyzeURL "http://bit.ly/abc123" rand).confidence : Int)
      ≠ .safe := by
  have hfac : ScamDetector.urlRiskFactors "http://bit.ly/abc123"
      = ["Suspicious domain: bit.ly", "No secure HTTPS connection"] := by decide
  have hconf : (ScamDetector.analyzeURL "http://bit.ly/abc123" rand).confidence
      = 55 + rand % 25 := by
    show ScamDetector.calculateRiskScore
      (ScamDetector.urlRiskFactors "http://bit.ly/abc123") rand = _
    rw [hfac, ScamDetector.calculateRiskScore_eq _ _ (by simp)]
    rw [show ScamDetector.tierScore
        (["Suspicious domain: bit.ly", "No secure HTTPS connection"] : List String).length
        rand = 55 + rand % 25 from by simp [ScamDetector.tierScore]]
    rw [show ScamDetector.bonus
        ["Suspicious domain: bit.ly", "No secure HTTPS connection"] = 0 from by decide]
    omega
  refine ⟨?_, ?_, ?_, ?_⟩
  · show _ ∈ ScamDetector.urlRiskFactors "http://bit.ly/abc123"
    rw [hfac]; simp
  · show _ ∈ ScamDetector.urlRiskFactors "http://bit.ly/abc123"
    rw [hfac]; simp
  · rw [hconf]; omega
  · rw [hconf]
    exact classify_ne_safe_of_ge_40 _ (by omega)

/-- Claim C10: with three or more risk factors the tiered scorer returns at
least 80 for every random draw and every bonus configuration, the
deterministic `routes.ts` scorer returns exactly 95, and the verdict
derived from either score is `dangerous`. -/
theorem three_factors_dangerous (riskFactors : List String) (rand : Nat)
    (h3 : 3 ≤ riskFactors.length) :
    80 ≤ ScamDetector.calculateRiskScore riskFactors rand ∧
    Routes.calculateRiskScore riskFactors = 95 ∧
    classify ((ScamDetector.calculateRiskScore riskFactors rand : Nat) : Int)
      = .dangerous ∧
    classify ((Routes.calculateRiskScore riskFactors : Nat) : Int) = .dangerous := by
  have hne : riskFactors ≠ [] := by
    intro e
    rw [e] at h3
    simp at h3
  have h80 : 80 ≤ ScamDetector.calculateRiskScore riskFactors rand := by
    rw [ScamDetector.calculateRiskScore_eq _ _ hne]
    rw [show ScamDetector.tierScore riskFactors.length rand = 80 + rand % 15 from by
      simp only [ScamDetector.tierScore]
      rw [if_neg (by omega), if_neg (by omega)]]
    omega
  have hr : Routes.calculateRiskScore riskFactors = 95 := by
    simp only [Routes.calculateRiskScore]
    rw [if_neg (by omega), if_neg (by omega), if_neg (by omega)]
  refine ⟨h80, hr, classify_of_ge_70 _ (le_trans (by norm_num) h80), ?_⟩
  rw [hr]
  exact classify_of_ge_70 95 (by norm_num)

/-- Witness for claim C10 at three plain factors with jitter 0. -/
theorem three_factors_dangerous_witness :
    3 ≤ (["a", "b", "c"] : List String).length ∧
    (80 ≤ ScamDetector.calculateRiskScore ["a", "b", "c"] 0 ∧
      Routes.calculateRiskScore ["a", "b", "c"] = 95 ∧
      classify ((ScamDetector.calculateRiskScore ["a", "b", "c"] 0 : Nat) : Int)
        = .dangerous ∧
      classify ((Routes.calculateRiskScore ["a", "b", "c"] : Nat) : Int) = .dangerous) :=
  ⟨by decide, three_factors_dangerous ["a", "b", "c"] 0 (by decide)⟩
end CyberProject
